import Mathlib

/-!
A verification development for the device-state synchronization engine of the
homebridge-airthings plugin.  The definitions below are shallow embeddings of
the TypeScript sources:

* `StatePoller`   — the `DevicePoller` of `src/src/poller.ts` (mutates a shared
  `DeviceState` record and signals through a single `onUpdate` callback);
* `EmitterPoller` — the `DevicePoller` of the event-emitter variant
  (`src/unnamed/part_003`; emits `update` and `fault` events);
* `Api`           — the `AirthingsApiClient` of `src/unnamed/part_002`
  (token caching, single-flight refresh, 401-retry request layer);
* `Platform`      — device exclusion filtering and orphaned-accessory cleanup
  of `AirthingsHubPlatform` (`src/unnamed/part_000`);
* `Sched`         — the timer lifecycle of both poller variants
  (`start` / `stop` / timer fire / fetch completion).

Machine numbers are modelled with `Nat`/`Int`; JavaScript exceptions are
modelled with an explicit `JsError` type covering both `Error` instances and
thrown non-`Error` values, and fallible computations return `Except`.
-/

/-- A JavaScript thrown value: either an `Error` instance (with `name` and
`message` fields) or a non-`Error` value whose `String(...)` rendering is
kept. -/
inductive JsError where
  | err (name : String) (message : String)
  | nonError (string : String)
deriving DecidableEq, Repr

/-- `error instanceof Error ? error.message : String(error)` -/
def JsError.errMessage : JsError → String
  | .err _ m => m
  | .nonError s => s

/-- `error instanceof Error && error.name === 'AbortError'` -/
def JsError.isAbortError : JsError → Bool
  | .err n _ => n == "AbortError"
  | .nonError _ => false

/-- Does the character list start with the pattern? -/
def startsWithPat : List Char → List Char → Bool
  | [], _ => true
  | _ :: _, [] => false
  | p :: ps, c :: cs => p == c && startsWithPat ps cs

/-- Does the pattern occur anywhere in the character list? -/
def containsPat (pat : List Char) : List Char → Bool
  | [] => pat.isEmpty
  | c :: rest => startsWithPat pat (c :: rest) || containsPat pat rest

/-- Model of JavaScript `String.prototype.includes`: `pat` occurs somewhere
inside `s`. -/
def strIncludes (s pat : String) : Bool :=
  containsPat pat.data s.data

/-- The body returned by `getLatestSamples`: the `data` field may be missing
(`none`) or hold a mapping from sensor-kind names to numeric readings.
The numeric values are irrelevant to the poller's control flow and are kept
as integers. -/
structure SampleResponse where
  data : Option (List (String × Int))
deriving DecidableEq, Repr

/-- The outcome of one `apiClient.getLatestSamples` call as seen by `poll()`:
the promise either resolves (possibly with a nullish body, `none`) or rejects
with a thrown value. -/
inductive FetchOutcome where
  | resolved (sample : Option SampleResponse)
  | rejected (e : JsError)
deriving DecidableEq, Repr

/-- `!sample || !sample.data || Object.keys(sample.data).length === 0` -/
def isMalformed : Option SampleResponse → Bool
  | none => true
  | some s =>
    match s.data with
    | none => true
    | some kvs => kvs.isEmpty

/-- A soft-failure outcome: a resolved but empty/malformed sample, or a
rejection with an `AbortError` (request timeout). -/
def FetchOutcome.isSoft : FetchOutcome → Bool
  | .resolved s => isMalformed s
  | .rejected e => e.isAbortError

/-- A rate-limit outcome: a rejection with a non-Abort error whose message
contains `status 429` (the message produced by the HTTP layer for an
HTTP 429 response). -/
def FetchOutcome.isRateLimit : FetchOutcome → Bool
  | .resolved _ => false
  | .rejected e => !e.isAbortError && strIncludes e.errMessage "status 429"

namespace StatePoller

/-- `DeviceState` of `src/unnamed/part_001`: latest sample plus fault flag. -/
structure DeviceState where
  latestSample : Option (List (String × Int))
  isFaulted : Bool
deriving DecidableEq, Repr

/-- `createInitialState()` -/
def createInitialState : DeviceState :=
  { latestSample := none, isFaulted := false }

/-- The mutable fields of the `DevicePoller` of `src/src/poller.ts`:
the owned `DeviceState` and the private `consecutiveFailures` counter. -/
structure Poller where
  state : DeviceState
  consecutiveFailures : Nat
deriving DecidableEq, Repr

/-- A freshly constructed poller over a fresh `DeviceState`. -/
def initPoller : Poller :=
  { state := createInitialState, consecutiveFailures := 0 }

/-- `handleConsecutiveFailure` of `src/src/poller.ts`: increment the counter;
at 3 or more, set `isFaulted` and call `onUpdate`.  The second component
counts the `onUpdate` calls made. -/
def handleConsecutiveFailure (p : Poller) : Poller × Nat :=
  let cf := p.consecutiveFailures + 1
  if 3 ≤ cf then
    ({ state := { latestSample := p.state.latestSample, isFaulted := true },
       consecutiveFailures := cf }, 1)
  else
    ({ state := p.state, consecutiveFailures := cf }, 0)

/-- The try-block of `poll()` after the awaited fetch resolved: malformed
samples go through `handleConsecutiveFailure`; a non-empty sample replaces
`latestSample`, clears the fault, resets the counter and calls `onUpdate`. -/
def pollResolved (p : Poller) (sample : Option SampleResponse) : Poller × Nat :=
  match sample with
  | none => handleConsecutiveFailure p
  | some s =>
    match s.data with
    | none => handleConsecutiveFailure p
    | some kvs =>
      if kvs.isEmpty then
        handleConsecutiveFailure p
      else
        ({ state := { latestSample := some kvs, isFaulted := false },
           consecutiveFailures := 0 }, 1)

/-- The catch-block of `poll()` in `src/src/poller.ts`: an `AbortError`
(timeout) is a soft failure; every other thrown value immediately sets
`isFaulted`, resets the counter to 0 and calls `onUpdate` once.  Total over
all of `JsError`, including thrown non-`Error` values. -/
def pollCaught (p : Poller) (e : JsError) : Poller × Nat :=
  if e.isAbortError then
    handleConsecutiveFailure p
  else
    ({ state := { latestSample := p.state.latestSample, isFaulted := true },
       consecutiveFailures := 0 }, 1)

/-- One `poll()` cycle of `src/src/poller.ts` as a state transformer, paired
with the number of `onUpdate` calls made during the cycle. -/
def poll (p : Poller) (o : FetchOutcome) : Poller × Nat :=
  match o with
  | .resolved s => pollResolved p s
  | .rejected e => pollCaught p e

/-- `poll()` as a fallible computation: the try-block propagates a rejected
fetch as a thrown value, and the surrounding catch handler turns every such
value into a normal return.  `Except.error` would mean an exception escaping
to the caller. -/
def pollExc (p : Poller) (o : FetchOutcome) : Except JsError (Poller × Nat) :=
  let tryBlock : Except JsError (Poller × Nat) :=
    match o with
    | .resolved s => .ok (pollResolved p s)
    | .rejected e => .error e
  match tryBlock with
  | .ok r => .ok r
  | .error e => .ok (pollCaught p e)

/-- A sequence of poll cycles, returning the final poller together with the
total number of `onUpdate` calls. -/
def runPoll (p : Poller) : List FetchOutcome → Poller × Nat
  | [] => (p, 0)
  | o :: rest =>
    let (p1, n1) := poll p o
    let (p2, n2) := runPoll p1 rest
    (p2, n1 + n2)

end StatePoller

namespace EmitterPoller

/-- The events emitted by one cycle of the event-emitter `DevicePoller`
(`src/unnamed/part_003`): counts of `update` and `fault` emissions. -/
structure Emits where
  updates : Nat
  faults : Nat
deriving DecidableEq, Repr

/-- `handleConsecutiveFailure` of `src/unnamed/part_003`: increment the
counter; at 3 or more emit a `fault` event (the warning is logged only when
the counter is exactly 3).  Returns the new counter and the emissions. -/
def handleConsecutiveFailure (cf : Nat) : Nat × Emits :=
  let cf1 := cf + 1
  if 3 ≤ cf1 then
    (cf1, { updates := 0, faults := 1 })
  else
    (cf1, { updates := 0, faults := 0 })

/-- The try-block of `poll()` after the awaited fetch resolved. -/
def pollResolved (cf : Nat) (sample : Option SampleResponse) : Nat × Emits :=
  match sample with
  | none => handleConsecutiveFailure cf
  | some s =>
    match s.data with
    | none => handleConsecutiveFailure cf
    | some kvs =>
      if kvs.isEmpty then
        handleConsecutiveFailure cf
      else
        (0, { updates := 1, faults := 0 })

/-- The catch-block of `poll()` in `src/unnamed/part_003`: `AbortError` is a
soft failure; an error whose message contains `status 429` is logged and
ignored (no counter change, no emission); everything else goes through
`handleConsecutiveFailure`. -/
def pollCaught (cf : Nat) (e : JsError) : Nat × Emits :=
  if e.isAbortError then
    handleConsecutiveFailure cf
  else if strIncludes e.errMessage "status 429" then
    (cf, { updates := 0, faults := 0 })
  else
    handleConsecutiveFailure cf

/-- One `poll()` cycle of `src/unnamed/part_003`: new counter plus emitted
events. -/
def poll (cf : Nat) (o : FetchOutcome) : Nat × Emits :=
  match o with
  | .resolved s => pollResolved cf s
  | .rejected e => pollCaught cf e

/-- `poll()` as a fallible computation (see `StatePoller.pollExc`). -/
def pollExc (cf : Nat) (o : FetchOutcome) : Except JsError (Nat × Emits) :=
  let tryBlock : Except JsError (Nat × Emits) :=
    match o with
    | .resolved s => .ok (pollResolved cf s)
    | .rejected e => .error e
  match tryBlock with
  | .ok r => .ok r
  | .error e => .ok (pollCaught cf e)

/-- A sequence of poll cycles: final counter plus total emissions. -/
def runPoll (cf : Nat) : List FetchOutcome → Nat × Emits
  | [] => (cf, { updates := 0, faults := 0 })
  | o :: rest =>
    let (cf1, e1) := poll cf o
    let (cf2, e2) := runPoll cf1 rest
    (cf2, { updates := e1.updates + e2.updates, faults := e1.faults + e2.faults })

end EmitterPoller

namespace Api

/-- `TOKEN_REFRESH_MARGIN_MS` of `src/constants` -/
def TOKEN_REFRESH_MARGIN_MS : Nat := 60 * 1000

/-- The token-cache fields of `AirthingsApiClient` (`src/unnamed/part_002`);
`tokenRefreshPromise` is modelled separately where concurrency matters
(see `TokenMgr`). -/
structure ClientState where
  accessToken : Option String
  tokenExpirationTime : Nat
deriving DecidableEq, Repr

/-- Is the cached token present and unexpired (`this.accessToken &&
Date.now() < this.tokenExpirationTime`)? -/
def cacheValid (now : Nat) (s : ClientState) : Bool :=
  match s.accessToken with
  | some _ => decide (now < s.tokenExpirationTime)
  | none => false

/-- `getToken` in a sequential (no concurrent caller) setting: return the
cached token if valid, otherwise perform one credential exchange that grants
`grant` with lifetime `expiresIn` seconds.  The third component counts the
network exchanges performed (0 or 1). -/
def getTokenSeq (grant : String) (expiresIn : Nat) (now : Nat) (s : ClientState) :
    String × ClientState × Nat :=
  if cacheValid now s then
    (s.accessToken.getD "", s, 0)
  else
    (grant,
     { accessToken := some grant,
       tokenExpirationTime := max now (now + expiresIn * 1000 - TOKEN_REFRESH_MARGIN_MS) },
     1)

/-- An HTTP response to one API call: status code and (parsed) body. -/
structure Resp where
  status : Nat
  body : String
deriving DecidableEq, Repr

/-- `response.ok`: status in the 2xx range. -/
def respOk (r : Resp) : Bool :=
  200 ≤ r.status && r.status ≤ 299

/-- The errors thrown by `AirthingsApiClient.request`, by message family:
`API returned 403 Forbidden …` and `API request failed with status {code} …`.
`noResponse` models a transport-level rejection of the underlying fetch. -/
inductive ApiError where
  | forbidden
  | statusError (code : Nat)
  | noResponse
deriving DecidableEq, Repr

/-- The observable result of one `request` call: outcome, number of API HTTP
calls, number of auth exchanges, and the final token-cache state. -/
structure ReqResult where
  result : Except ApiError String
  apiCalls : Nat
  authExchanges : Nat
  finalState : ClientState
deriving Repr

/-- The retry leg of `request` (`isRetry = true`): obtain a token, perform
the call, and fail terminally on any non-2xx status — a second 401 is NOT
retried again. -/
def requestRetry (grant : String) (expiresIn now : Nat) (s : ClientState)
    (responses : List Resp) : ReqResult :=
  let (_, s1, a1) := getTokenSeq grant expiresIn now s
  match responses with
  | [] => { result := .error .noResponse, apiCalls := 1, authExchanges := a1, finalState := s1 }
  | r :: _ =>
    if respOk r then
      { result := .ok r.body, apiCalls := 1, authExchanges := a1, finalState := s1 }
    else if r.status == 403 then
      { result := .error .forbidden, apiCalls := 1, authExchanges := a1, finalState := s1 }
    else
      { result := .error (.statusError r.status), apiCalls := 1, authExchanges := a1,
        finalState := s1 }

/-- `AirthingsApiClient.request` (first attempt, `isRetry = false`) against a
script of HTTP responses consumed in order: on a 401, clear the cached token
and retry the same request exactly once with a freshly obtained token. -/
def request (grant : String) (expiresIn now : Nat) (s : ClientState)
    (responses : List Resp) : ReqResult :=
  let (_, s1, a1) := getTokenSeq grant expiresIn now s
  match responses with
  | [] => { result := .error .noResponse, apiCalls := 1, authExchanges := a1, finalState := s1 }
  | r :: rest =>
    if respOk r then
      { result := .ok r.body, apiCalls := 1, authExchanges := a1, finalState := s1 }
    else if r.status == 401 then
      let s2 : ClientState := { accessToken := none, tokenExpirationTime := 0 }
      let sub := requestRetry grant expiresIn now s2 rest
      { result := sub.result, apiCalls := 1 + sub.apiCalls,
        authExchanges := a1 + sub.authExchanges, finalState := sub.finalState }
    else if r.status == 403 then
      { result := .error .forbidden, apiCalls := 1, authExchanges := a1, finalState := s1 }
    else
      { result := .error (.statusError r.status), apiCalls := 1, authExchanges := a1,
        finalState := s1 }

end Api

namespace TokenMgr

/-- The `AirthingsApiClient` fields relevant to concurrent `getToken` calls:
the cached token and whether `tokenRefreshPromise` is non-null. -/
structure TMState where
  accessToken : Option String
  tokenExpirationTime : Nat
  inflight : Bool
deriving DecidableEq, Repr

/-- What one `getToken()` call does in its synchronous prefix (between the
call and its first suspension point), under the cooperative scheduler: it
either returns the cached token, joins the in-flight refresh promise, or
starts a new refresh (setting `tokenRefreshPromise`). -/
inductive GetTokenAct where
  | cached (tok : String)
  | joined
  | started
deriving DecidableEq, Repr

/-- The synchronous prefix of `getToken()` (`src/unnamed/part_002`, lines
32–46): cached-token check, then in-flight check, then start a refresh. -/
def getTokenEnter (now : Nat) (s : TMState) : GetTokenAct × TMState :=
  match s.accessToken with
  | some t =>
    if now < s.tokenExpirationTime then
      (.cached t, s)
    else if s.inflight then
      (.joined, s)
    else
      (.started, { s with inflight := true })
  | none =>
    if s.inflight then
      (.joined, s)
    else
      (.started, { s with inflight := true })

/-- `n` concurrent `getToken()` calls: under the cooperative scheduler each
call's synchronous prefix runs atomically, in arrival order, before the
single refresh resolves. -/
def runGetTokens (now : Nat) (s : TMState) : Nat → List GetTokenAct × TMState
  | 0 => ([], s)
  | n + 1 =>
    let (a, s1) := getTokenEnter now s
    let (as, s2) := runGetTokens now s1 n
    (a :: as, s2)

/-- The result the in-flight `fetchNewToken()` settles with. -/
inductive RefreshResult where
  | success (tok : String) (expiresIn : Nat)
  | failure
deriving DecidableEq, Repr

/-- Settling the refresh: on success the token is cached, on failure the
cache is cleared; in both cases the `.finally` handler clears
`tokenRefreshPromise`. -/
def refreshComplete (now : Nat) (_s : TMState) : RefreshResult → TMState
  | .success tok expiresIn =>
    { accessToken := some tok,
      tokenExpirationTime :=
        max now (now + expiresIn * 1000 - Api.TOKEN_REFRESH_MARGIN_MS),
      inflight := false }
  | .failure => { accessToken := none, tokenExpirationTime := 0, inflight := false }

/-- The value each caller's awaited promise yields once the single refresh
resolves with token `v`: callers that joined or started the refresh receive
`v`; a caller served from the cache received the cached token. -/
def deliver (v : String) : GetTokenAct → String
  | .cached t => t
  | .joined => v
  | .started => v

/-- Is the cached token absent or expired? -/
def cacheInvalid (now : Nat) (s : TMState) : Bool :=
  match s.accessToken with
  | some _ => decide (s.tokenExpirationTime ≤ now)
  | none => true

end TokenMgr

namespace Platform

/-- The fields of an upstream `AirthingsDevice` consulted by the exclusion
filter and the orphan cleanup. -/
structure Device where
  id : String
  deviceType : String
deriving DecidableEq, Repr

/-- The configuration fields consulted by `shouldIgnoreDevice` and
`cleanupOrphanedAccessories`. -/
structure Config where
  ignoredDevices : List String
  includedDevices : List String
  orphanGracePeriodDays : Nat
deriving DecidableEq, Repr

/-- `DEVICE_TYPE_HUB` of `src/constants` -/
def DEVICE_TYPE_HUB : String := "HUB"

/-- `AirthingsHubPlatform.shouldIgnoreDevice` (`src/unnamed/part_000`, lines
124–145): hub-type check, then block-list, then non-empty allow-list. -/
def shouldIgnoreDevice (cfg : Config) (d : Device) : Bool :=
  if d.deviceType == DEVICE_TYPE_HUB then
    true
  else if cfg.ignoredDevices.contains d.id then
    true
  else if decide (0 < cfg.includedDevices.length) && !cfg.includedDevices.contains d.id then
    true
  else
    false

/-- The grace period in milliseconds:
`config.orphanGracePeriodDays * 24 * 60 * 60 * 1000`. -/
def orphanGracePeriodMs (cfg : Config) : Int :=
  (cfg.orphanGracePeriodDays : Int) * 24 * 60 * 60 * 1000

/-- A cached accessory record: the stored device copy and the optional
`context.orphanedSince` timestamp (absent when not a number). -/
structure AccRecord where
  device : Device
  orphanedSince : Option Int
deriving DecidableEq, Repr

/-- The fate of one cached accessory in `cleanupOrphanedAccessories`. -/
structure CleanupFate where
  retained : Option AccRecord
  evicted : Bool
  faultFlagged : Bool
deriving DecidableEq, Repr

/-- One iteration of the loop in `cleanupOrphanedAccessories`
(`src/unnamed/part_000`, lines 147–194) for a single cached accessory:
an accessory whose device is missing upstream (or is excluded) is marked
orphaned if unmarked, evicted when strictly beyond the grace period and
fault-flagged otherwise; an accessory whose device is present has its
orphan marker deleted. -/
def cleanupStep (cfg : Config) (activeDevices : List Device) (now : Int)
    (acc : AccRecord) : CleanupFate :=
  let upstream := activeDevices.find? (fun d => d.id == acc.device.id)
  let shouldRemove := upstream.isNone || shouldIgnoreDevice cfg acc.device
  if shouldRemove then
    let since :=
      match acc.orphanedSince with
      | some t => t
      | none => now
    if now - since > orphanGracePeriodMs cfg then
      { retained := none, evicted := true, faultFlagged := false }
    else
      { retained := some { acc with orphanedSince := some since },
        evicted := false, faultFlagged := true }
  else
    { retained := some { acc with orphanedSince := none },
      evicted := false, faultFlagged := false }

end Platform

namespace Sched

/-- The scheduling fields of a `DevicePoller` (both variants share this
code): `isPolling`, whether a `setTimeout` timer is pending
(`pollingInterval !== null`), and whether a fetch cycle is in flight. -/
structure PollerSched where
  isPolling : Bool
  timerArmed : Bool
  inflight : Bool
deriving DecidableEq, Repr

/-- The events that drive a poller's lifecycle: the public `start`/`stop`
calls, a pending timer firing (which begins a fetch cycle), and an in-flight
fetch settling (whose `.finally` continuation runs `scheduleNext`). -/
inductive PEvent where
  | start
  | stop
  | timerFire
  | fetchDone
deriving DecidableEq, Repr

/-- One lifecycle transition.  The `Bool` reports whether this event began
the execution of a poll cycle.  `start` is a no-op while running; `stop`
clears `isPolling` and cancels the pending timer; a timer can only fire
while armed, and its callback bails out if `isPolling` is false;
`scheduleNext` (run when the fetch settles) rearms the timer only if
`isPolling` is still true. -/
def step (s : PollerSched) : PEvent → PollerSched × Bool
  | .start =>
    if s.isPolling then
      (s, false)
    else
      ({ s with isPolling := true, timerArmed := true }, false)
  | .stop =>
    ({ s with isPolling := false, timerArmed := false }, false)
  | .timerFire =>
    if s.timerArmed then
      if s.isPolling then
        ({ s with timerArmed := false, inflight := true }, true)
      else
        ({ s with timerArmed := false }, false)
    else
      (s, false)
  | .fetchDone =>
    if s.inflight then
      if s.isPolling then
        ({ s with inflight := false, timerArmed := true }, false)
      else
        ({ s with inflight := false }, false)
    else
      (s, false)

/-- Run a sequence of lifecycle events, counting the poll cycles begun. -/
def run (s : PollerSched) : List PEvent → PollerSched × Nat
  | [] => (s, 0)
  | e :: rest =>
    let (s1, b) := step s e
    let (s2, n) := run s1 rest
    (s2, (if b then 1 else 0) + n)

end Sched

/-! ## Helper lemmas -/

/-- A soft outcome routes `src/src/poller.ts`'s `poll` through
`handleConsecutiveFailure`. -/
lemma statePoller_poll_soft (p : StatePoller.Poller) (o : FetchOutcome)
    (h : o.isSoft = true) :
    StatePoller.poll p o = StatePoller.handleConsecutiveFailure p := by
  cases o with
  | resolved s =>
    cases s with
    | none => rfl
    | some sr =>
      cases hd : sr.data with
      | none =>
        simp [StatePoller.poll, StatePoller.pollResolved, hd]
      | some kvs =>
        have hk : kvs.isEmpty = true := by
          simpa [FetchOutcome.isSoft, isMalformed, hd] using h
        simp [StatePoller.poll, StatePoller.pollResolved, hd, hk]
  | rejected e =>
    have ha : e.isAbortError = true := by
      simpa [FetchOutcome.isSoft] using h
    simp [StatePoller.poll, StatePoller.pollCaught, ha]

/-- `handleConsecutiveFailure` of `src/src/poller.ts` never touches
`latestSample`. -/
lemma statePoller_hcf_latestSample (p : StatePoller.Poller) :
    (StatePoller.handleConsecutiveFailure p).1.state.latestSample =
      p.state.latestSample := by
  unfold StatePoller.handleConsecutiveFailure
  by_cases h : 3 ≤ p.consecutiveFailures + 1 <;> simp [h]

/-- Below the threshold, `handleConsecutiveFailure` of `src/src/poller.ts`
only increments the counter. -/
lemma statePoller_hcf_below (p : StatePoller.Poller)
    (h : p.consecutiveFailures + 1 < 3) :
    StatePoller.handleConsecutiveFailure p =
      ({ state := p.state, consecutiveFailures := p.consecutiveFailures + 1 }, 0) := by
  unfold StatePoller.handleConsecutiveFailure
  simp [Nat.not_le.mpr h]

/-- At the threshold, `handleConsecutiveFailure` of `src/src/poller.ts` sets
the fault flag and notifies once. -/
lemma statePoller_hcf_at (p : StatePoller.Poller)
    (h : 3 ≤ p.consecutiveFailures + 1) :
    StatePoller.handleConsecutiveFailure p =
      ({ state := { latestSample := p.state.latestSample, isFaulted := true },
         consecutiveFailures := p.consecutiveFailures + 1 }, 1) := by
  unfold StatePoller.handleConsecutiveFailure
  simp [h]

/-- A rate-limit outcome is absorbed by the event-emitter poller: counter and
emissions untouched. -/
lemma emitterPoller_poll_rateLimit (cf : Nat) (o : FetchOutcome)
    (h : o.isRateLimit = true) :
    EmitterPoller.poll cf o = (cf, { updates := 0, faults := 0 }) := by
  cases o with
  | resolved s => simp [FetchOutcome.isRateLimit] at h
  | rejected e =>
    have h2 := h
    simp only [FetchOutcome.isRateLimit, Bool.and_eq_true, Bool.not_eq_true'] at h2
    simp [EmitterPoller.poll, EmitterPoller.pollCaught, h2.1, h2.2]

/-! ## Claims -/

/-- C1 (counterexample): the claim states that no poll cycle whose fetch
fails with a `RateLimitError` ever sets `isFaulted`.  This is false for the
`DevicePoller` of `src/src/poller.ts`: that variant has no 429 branch, so
the explicit rate-limit rejection below (a non-Abort `Error` whose message
is the HTTP layer's 429 message) takes the hard-failure path of the catch
block and sets `isFaulted = true` on the very first cycle. -/
theorem statePoller_first_rate_limit_cycle_sets_fault :
    FetchOutcome.isRateLimit
        (.rejected (.err "Error" "API request failed with status 429: Too Many Requests")) = true ∧
    (StatePoller.poll StatePoller.initPoller
        (.rejected (.err "Error" "API request failed with status 429: Too Many Requests"))).1.state.isFaulted = true := by
  decide

/-- C1 (amended): for the event-emitter `DevicePoller` of
`src/unnamed/part_003`, a sequence of poll cycles each of which fails with a
`RateLimitError` leaves `consecutiveFailures` exactly where it started and
emits no `fault` (and no `update`) event; in particular 5 consecutive
rate-limit cycles from a fresh poller leave the counter at 0 with no fault
ever signalled. -/
theorem emitterPoller_rate_limit_immunity (cf : Nat) (outs : List FetchOutcome)
    (h : ∀ o ∈ outs, o.isRateLimit = true) :
    EmitterPoller.runPoll cf outs = (cf, { updates := 0, faults := 0 }) := by
  induction outs with
  | nil => rfl
  | cons o rest ih =>
    have ho : o.isRateLimit = true := h o (List.mem_cons_self o rest)
    have hrest : ∀ o2 ∈ rest, o2.isRateLimit = true :=
      fun o2 hm => h o2 (List.mem_cons_of_mem o hm)
    simp [EmitterPoller.runPoll, emitterPoller_poll_rateLimit cf o ho, ih hrest]

/-- Witness for C1 (amended): 5 consecutive rate-limit cycles from the
initial counter leave it at 0 with zero emissions. -/
theorem emitterPoller_rate_limit_immunity_witness :
    EmitterPoller.runPoll 0
      (List.replicate 5
        (.rejected (.err "Error" "API request failed with status 429: Too Many Requests"))) =
      (0, { updates := 0, faults := 0 }) :=
  emitterPoller_rate_limit_immunity 0 _ (by decide)

/-- C2 (counterexample): the claim states that a fetch failure that is
neither an `AbortError` nor a `RateLimitError` immediately sets `isFaulted`,
resets `consecutiveFailures` to 0 and fires exactly one notification.  This
is false for the event-emitter `DevicePoller` of `src/unnamed/part_003`:
there such an error goes through `handleConsecutiveFailure`, so after one
cycle with the explicit network error below the counter is 1 (not 0) and no
`fault` event has been emitted. -/
theorem emitterPoller_hard_error_does_not_fault_immediately :
    (JsError.err "Error" "connect ECONNREFUSED 127.0.0.1:443").isAbortError = false ∧
    FetchOutcome.isRateLimit
        (.rejected (.err "Error" "connect ECONNREFUSED 127.0.0.1:443")) = false ∧
    EmitterPoller.poll 0
        (.rejected (.err "Error" "connect ECONNREFUSED 127.0.0.1:443")) =
      (1, { updates := 0, faults := 0 }) := by
  decide

/-- C2 (amended): for the `DevicePoller` of `src/src/poller.ts`, every poll
cycle whose fetch fails with any error that is neither an `AbortError`
(timeout) nor a `RateLimitError` immediately sets `isFaulted`, resets
`consecutiveFailures` to 0 and fires exactly one notification; the
event-emitter variant of `src/unnamed/part_003` instead defers such errors
to the consecutive-failure counter. -/
theorem statePoller_hard_error_immediate_fault (p : StatePoller.Poller) (e : JsError)
    (hab : e.isAbortError = false)
    (_hr : strIncludes e.errMessage "status 429" = false) :
    StatePoller.poll p (.rejected e) =
      ({ state := { latestSample := p.state.latestSample, isFaulted := true },
         consecutiveFailures := 0 }, 1) := by
  simp [StatePoller.poll, StatePoller.pollCaught, hab]

/-- Witness for C2 (amended): a DNS failure on a poller that already holds a
sample and two accumulated soft failures hard-faults at once. -/
theorem statePoller_hard_error_immediate_fault_witness :
    StatePoller.poll
        { state := { latestSample := some [("radonShortTermAvg", 77)], isFaulted := false },
          consecutiveFailures := 2 }
        (.rejected (.err "Error" "getaddrinfo ENOTFOUND ext-api.airthings.com")) =
      ({ state := { latestSample := some [("radonShortTermAvg", 77)], isFaulted := true },
         consecutiveFailures := 0 }, 1) :=
  statePoller_hard_error_immediate_fault _ _ (by decide) (by decide)

/-- C9: a poll cycle of `src/src/poller.ts` whose fetch succeeds but returns
an empty or malformed sample (a soft failure) leaves `latestSample` exactly
as it was before the cycle. -/
theorem statePoller_soft_cycle_preserves_latestSample (p : StatePoller.Poller)
    (s : Option SampleResponse) (h : isMalformed s = true) :
    (StatePoller.poll p (.resolved s)).1.state.latestSample =
      p.state.latestSample := by
  have hs : (FetchOutcome.resolved s).isSoft = true := by
    simpa [FetchOutcome.isSoft] using h
  rw [statePoller_poll_soft p _ hs]
  exact statePoller_hcf_latestSample p

/-- Witness for C9: a malformed (empty-mapping) response on a poller two
failures deep — the cycle escalates to a fault but the held sample is
untouched. -/
theorem statePoller_soft_cycle_preserves_latestSample_witness :
    (StatePoller.poll
        { state := { latestSample := some [("co2", 600)], isFaulted := false },
          consecutiveFailures := 2 }
        (.resolved (some { data := some [] }))).1.state.latestSample =
      some [("co2", 600)] :=
  statePoller_soft_cycle_preserves_latestSample _ _ (by decide)

/-- C3: soft-failure escalation in `src/src/poller.ts`.  From the initial
state, two consecutive soft-failure cycles (malformed sample or timeout)
leave `isFaulted` false with no notification; the third such cycle sets
`isFaulted` and fires exactly one notification; and a successful cycle with
a non-empty sample after two failures resets `consecutiveFailures` to 0, so
a subsequent unrelated streak of two soft failures does not escalate (its
cycles fire no fault notification and leave `isFaulted` false). -/
theorem statePoller_soft_failure_escalation
    (o1 o2 o3 o4 o5 : FetchOutcome) (kvs : List (String × Int))
    (h1 : o1.isSoft = true) (h2 : o2.isSoft = true) (h3 : o3.isSoft = true)
    (h4 : o4.isSoft = true) (h5 : o5.isSoft = true) (hk : kvs.isEmpty = false) :
    ((StatePoller.runPoll StatePoller.initPoller [o1, o2]).1.state.isFaulted = false ∧
     (StatePoller.runPoll StatePoller.initPoller [o1, o2]).2 = 0) ∧
    ((StatePoller.runPoll StatePoller.initPoller [o1, o2, o3]).1.state.isFaulted = true ∧
     (StatePoller.runPoll StatePoller.initPoller [o1, o2, o3]).2 = 1) ∧
    ((StatePoller.runPoll StatePoller.initPoller
        [o1, o2, .resolved (some { data := some kvs })]).1.consecutiveFailures = 0) ∧
    ((StatePoller.runPoll StatePoller.initPoller
        [o1, o2, .resolved (some { data := some kvs }), o4, o5]).1.state.isFaulted = false ∧
     (StatePoller.runPoll StatePoller.initPoller
        [o1, o2, .resolved (some { data := some kvs }), o4, o5]).2 = 1) := by
  have s1 : StatePoller.poll
      { state := { latestSample := none, isFaulted := false },
        consecutiveFailures := 0 } o1 =
      ({ state := { latestSample := none, isFaulted := false },
         consecutiveFailures := 1 }, 0) := by
    rw [statePoller_poll_soft _ _ h1, statePoller_hcf_below _ (by norm_num)]
  have s2 : StatePoller.poll
      { state := { latestSample := none, isFaulted := false },
        consecutiveFailures := 1 } o2 =
      ({ state := { latestSample := none, isFaulted := false },
         consecutiveFailures := 2 }, 0) := by
    rw [statePoller_poll_soft _ _ h2, statePoller_hcf_below _ (by norm_num)]
  have s3 : StatePoller.poll
      { state := { latestSample := none, isFaulted := false },
        consecutiveFailures := 2 } o3 =
      ({ state := { latestSample := none, isFaulted := true },
         consecutiveFailures := 3 }, 1) := by
    rw [statePoller_poll_soft _ _ h3, statePoller_hcf_at _ (by norm_num)]
  have sOK : StatePoller.poll
      { state := { latestSample := none, isFaulted := false },
        consecutiveFailures := 2 }
      (.resolved (some { data := some kvs })) =
      ({ state := { latestSample := some kvs, isFaulted := false },
         consecutiveFailures := 0 }, 1) := by
    simp [StatePoller.poll, StatePoller.pollResolved, hk]
  have s4 : StatePoller.poll
      { state := { latestSample := some kvs, isFaulted := false },
        consecutiveFailures := 0 } o4 =
      ({ state := { latestSample := some kvs, isFaulted := false },
         consecutiveFailures := 1 }, 0) := by
    rw [statePoller_poll_soft _ _ h4, statePoller_hcf_below _ (by norm_num)]
  have s5 : StatePoller.poll
      { state := { latestSample := some kvs, isFaulted := false },
        consecutiveFailures := 1 } o5 =
      ({ state := { latestSample := some kvs, isFaulted := false },
         consecutiveFailures := 2 }, 0) := by
    rw [statePoller_poll_soft _ _ h5, statePoller_hcf_below _ (by norm_num)]
  refine ⟨⟨?_, ?_⟩, ⟨?_, ?_⟩, ?_, ⟨?_, ?_⟩⟩ <;>
    simp [StatePoller.runPoll, StatePoller.initPoller, StatePoller.createInitialState,
      s1, s2, s3, sOK, s4, s5]

/-- Witness for C3: the five cycles instantiated with a null response, a
missing `data` field, an empty mapping, a timeout and a null response, and
the recovery sample `{ radonShortTermAvg: 42 }`. -/
theorem statePoller_soft_failure_escalation_witness :
    ((StatePoller.runPoll StatePoller.initPoller
        [.resolved none, .resolved (some { data := none })]).1.state.isFaulted = false ∧
     (StatePoller.runPoll StatePoller.initPoller
        [.resolved none, .resolved (some { data := none })]).2 = 0) ∧
    ((StatePoller.runPoll StatePoller.initPoller
        [.resolved none, .resolved (some { data := none }),
         .resolved (some { data := some [] })]).1.state.isFaulted = true ∧
     (StatePoller.runPoll StatePoller.initPoller
        [.resolved none, .resolved (some { data := none }),
         .resolved (some { data := some [] })]).2 = 1) ∧
    ((StatePoller.runPoll StatePoller.initPoller
        [.resolved none, .resolved (some { data := none }),
         .resolved (some { data := some [("radonShortTermAvg", 42)] })]).1.consecutiveFailures = 0) ∧
    ((StatePoller.runPoll StatePoller.initPoller
        [.resolved none, .resolved (some { data := none }),
         .resolved (some { data := some [("radonShortTermAvg", 42)] }),
         .rejected (.err "AbortError" "The operation was aborted"),
         .resolved none]).1.state.isFaulted = false ∧
     (StatePoller.runPoll StatePoller.initPoller
        [.resolved none, .resolved (some { data := none }),
         .resolved (some { data := some [("radonShortTermAvg", 42)] }),
         .rejected (.err "AbortError" "The operation was aborted"),
         .resolved none]).2 = 1) :=
  statePoller_soft_failure_escalation _ _ _ _ _ _
    (by decide) (by decide) (by decide) (by decide) (by decide) (by decide)

/-- C7: the exclusion filters of `shouldIgnoreDevice` apply in the fixed
order hub-type, then block-list (`ignoredDevices`), then allow-list
(`includedDevices`): a hub-type device is always excluded; a device present
on both the block-list and the allow-list is excluded; and a device absent
from a non-empty allow-list is excluded even when it is not on the
block-list. -/
theorem exclusion_filter_precedence (cfg : Platform.Config)
    (dHub dBoth dAbs : Platform.Device)
    (h1 : dHub.deviceType = "HUB")
    (h2 : cfg.ignoredDevices.contains dBoth.id = true)
    (_h3 : cfg.includedDevices.contains dBoth.id = true)
    (h4 : cfg.includedDevices ≠ [])
    (h5 : cfg.includedDevices.contains dAbs.id = false) :
    Platform.shouldIgnoreDevice cfg dHub = true ∧
    Platform.shouldIgnoreDevice cfg dBoth = true ∧
    Platform.shouldIgnoreDevice cfg dAbs = true := by
  have hlen : 0 < cfg.includedDevices.length := List.length_pos.mpr h4
  have h2m : dBoth.id ∈ cfg.ignoredDevices := by simpa using h2
  have h5m : dAbs.id ∉ cfg.includedDevices := by simpa using h5
  refine ⟨?_, ?_, ?_⟩
  · simp [Platform.shouldIgnoreDevice, Platform.DEVICE_TYPE_HUB, h1]
  · by_cases hb : dBoth.deviceType == Platform.DEVICE_TYPE_HUB <;>
      simp [Platform.shouldIgnoreDevice, hb, h2m]
  · by_cases hh : dAbs.deviceType == Platform.DEVICE_TYPE_HUB
    · simp [Platform.shouldIgnoreDevice, hh]
    · by_cases hi : cfg.ignoredDevices.contains dAbs.id = true
      · have him : dAbs.id ∈ cfg.ignoredDevices := by simpa using hi
        simp [Platform.shouldIgnoreDevice, hh, him]
      · have hinm : dAbs.id ∉ cfg.ignoredDevices := by simpa using hi
        simp [Platform.shouldIgnoreDevice, hh, hinm, hlen, h5m]

/-- Witness for C7: a concrete configuration blocking `d2` and allowing only
`d9`, with a hub `h1`, a doubly-listed `d2` and an unlisted `d3`: all three
are excluded. -/
theorem exclusion_filter_precedence_witness :
    Platform.shouldIgnoreDevice
        { ignoredDevices := ["d2"], includedDevices := ["d2", "d9"],
          orphanGracePeriodDays := 14 }
        { id := "h1", deviceType := "HUB" } = true ∧
    Platform.shouldIgnoreDevice
        { ignoredDevices := ["d2"], includedDevices := ["d2", "d9"],
          orphanGracePeriodDays := 14 }
        { id := "d2", deviceType := "VIEW_PLUS" } = true ∧
    Platform.shouldIgnoreDevice
        { ignoredDevices := ["d2"], includedDevices := ["d2", "d9"],
          orphanGracePeriodDays := 14 }
        { id := "d3", deviceType := "VIEW_PLUS" } = true :=
  exclusion_filter_precedence _ _ _ _
    (by decide) (by decide) (by decide) (by decide) (by decide)

/-- Once stopped (timer disarmed, `isPolling` false), a poller that receives
no further `start` call never polls again and never rearms its timer. -/
lemma sched_stopped_invariant (s : Sched.PollerSched)
    (hp : s.isPolling = false) (ht : s.timerArmed = false)
    (evs : List Sched.PEvent) (hs : Sched.PEvent.start ∉ evs) :
    (Sched.run s evs).1.isPolling = false ∧
    (Sched.run s evs).1.timerArmed = false ∧
    (Sched.run s evs).2 = 0 := by
  induction evs generalizing s with
  | nil => exact ⟨hp, ht, rfl⟩
  | cons e rest ih =>
    have hs1 : Sched.PEvent.start ≠ e := fun h => hs (h ▸ List.mem_cons_self e rest)
    have hs2 : Sched.PEvent.start ∉ rest := fun h => hs (List.mem_cons_of_mem e h)
    cases e with
    | start => exact absurd rfl hs1
    | stop =>
      have := ih { s with isPolling := false, timerArmed := false } rfl rfl hs2
      simpa [Sched.run, Sched.step] using this
    | timerFire =>
      have := ih s hp ht hs2
      simpa [Sched.run, Sched.step, ht] using this
    | fetchDone =>
      by_cases hf : s.inflight
      · have := ih { s with inflight := false } hp ht hs2
        simpa [Sched.run, Sched.step, hf, hp] using this
      · have := ih s hp ht hs2
        simpa [Sched.run, Sched.step, hf] using this

/-- C8: once `stop()` has been invoked — at any time, including while a
fetch cycle is in flight — the pending timer is cancelled and, as long as
the discarded poller receives no further `start()` call, no subsequent event
(timer fire, completion of an in-flight fetch, repeated `stop()`) ever
begins a poll cycle or rearms the timer: the stopped state is terminal. -/
theorem stop_is_terminal_no_reschedule (s : Sched.PollerSched)
    (evs : List Sched.PEvent) (hs : Sched.PEvent.start ∉ evs) :
    (Sched.step s .stop).1.timerArmed = false ∧
    (Sched.run (Sched.step s .stop).1 evs).1.isPolling = false ∧
    (Sched.run (Sched.step s .stop).1 evs).1.timerArmed = false ∧
    (Sched.run (Sched.step s .stop).1 evs).2 = 0 := by
  refine ⟨rfl, ?_⟩
  exact sched_stopped_invariant _ rfl rfl evs hs

/-- Witness for C8: a poller stopped while a fetch is in flight; the
in-flight fetch then settles and stray timer-fire events arrive — nothing
polls and the timer stays disarmed. -/
theorem stop_is_terminal_no_reschedule_witness :
    (Sched.step { isPolling := true, timerArmed := true, inflight := true } .stop).1.timerArmed = false ∧
    (Sched.run (Sched.step { isPolling := true, timerArmed := true, inflight := true } .stop).1
        [.fetchDone, .timerFire, .stop, .fetchDone, .timerFire]).1.isPolling = false ∧
    (Sched.run (Sched.step { isPolling := true, timerArmed := true, inflight := true } .stop).1
        [.fetchDone, .timerFire, .stop, .fetchDone, .timerFire]).1.timerArmed = false ∧
    (Sched.run (Sched.step { isPolling := true, timerArmed := true, inflight := true } .stop).1
        [.fetchDone, .timerFire, .stop, .fetchDone, .timerFire]).2 = 0 :=
  stop_is_terminal_no_reschedule _ _ (by decide)

/-- C4: the 401 retry law of `AirthingsApiClient.request`
(`src/unnamed/part_002`): starting with a valid cached token, a request
answered 401 clears the token and is retried exactly once with a freshly
obtained token, so a 401 followed by a 200 succeeds with exactly 2 API calls
and exactly one additional auth exchange; and when the retry is also
answered 401 the request fails terminally with the 401 error (the spec's
`AuthError`), still with exactly 2 API calls and one auth exchange — any
further scripted responses are never consumed. -/
theorem apiClient_401_retry_law (grant t e1bod e2bod b : String)
    (expiresIn now exp : Nat) (rest : List Api.Resp) (hv : now < exp) :
    ((Api.request grant expiresIn now
        { accessToken := some t, tokenExpirationTime := exp }
        [{ status := 401, body := e1bod }, { status := 200, body := b }]).result = .ok b ∧
     (Api.request grant expiresIn now
        { accessToken := some t, tokenExpirationTime := exp }
        [{ status := 401, body := e1bod }, { status := 200, body := b }]).apiCalls = 2 ∧
     (Api.request grant expiresIn now
        { accessToken := some t, tokenExpirationTime := exp }
        [{ status := 401, body := e1bod }, { status := 200, body := b }]).authExchanges = 1 ∧
     (Api.request grant expiresIn now
        { accessToken := some t, tokenExpirationTime := exp }
        [{ status := 401, body := e1bod }, { status := 200, body := b }]).finalState.accessToken
       = some grant) ∧
    ((Api.request grant expiresIn now
        { accessToken := some t, tokenExpirationTime := exp }
        ({ status := 401, body := e1bod } :: { status := 401, body := e2bod } :: rest)).result
        = .error (.statusError 401) ∧
     (Api.request grant expiresIn now
        { accessToken := some t, tokenExpirationTime := exp }
        ({ status := 401, body := e1bod } :: { status := 401, body := e2bod } :: rest)).apiCalls = 2 ∧
     (Api.request grant expiresIn now
        { accessToken := some t, tokenExpirationTime := exp }
        ({ status := 401, body := e1bod } :: { status := 401, body := e2bod } :: rest)).authExchanges = 1) := by
  refine ⟨⟨?_, ?_, ?_, ?_⟩, ⟨?_, ?_, ?_⟩⟩ <;>
    simp [Api.request, Api.requestRetry, Api.getTokenSeq, Api.cacheValid, Api.respOk, hv]

/-- Witness for C4: concrete token lifetimes and response bodies. -/
theorem apiClient_401_retry_law_witness :
    ((Api.request "tok2" 3600 1000
        { accessToken := some "tok1", tokenExpirationTime := 2000 }
        [{ status := 401, body := "unauthorized" }, { status := 200, body := "devices" }]).result
        = .ok "devices" ∧
     (Api.request "tok2" 3600 1000
        { accessToken := some "tok1", tokenExpirationTime := 2000 }
        [{ status := 401, body := "unauthorized" }, { status := 200, body := "devices" }]).apiCalls = 2 ∧
     (Api.request "tok2" 3600 1000
        { accessToken := some "tok1", tokenExpirationTime := 2000 }
        [{ status := 401, body := "unauthorized" }, { status := 200, body := "devices" }]).authExchanges = 1 ∧
     (Api.request "tok2" 3600 1000
        { accessToken := some "tok1", tokenExpirationTime := 2000 }
        [{ status := 401, body := "unauthorized" }, { status := 200, body := "devices" }]).finalState.accessToken
       = some "tok2") ∧
    ((Api.request "tok2" 3600 1000
        { accessToken := some "tok1", tokenExpirationTime := 2000 }
        ({ status := 401, body := "unauthorized" } :: { status := 401, body := "unauthorized" }
          :: [{ status := 200, body := "never-used" }])).result = .error (.statusError 401) ∧
     (Api.request "tok2" 3600 1000
        { accessToken := some "tok1", tokenExpirationTime := 2000 }
        ({ status := 401, body := "unauthorized" } :: { status := 401, body := "unauthorized" }
          :: [{ status := 200, body := "never-used" }])).apiCalls = 2 ∧
     (Api.request "tok2" 3600 1000
        { accessToken := some "tok1", tokenExpirationTime := 2000 }
        ({ status := 401, body := "unauthorized" } :: { status := 401, body := "unauthorized" }
          :: [{ status := 200, body := "never-used" }])).authExchanges = 1) :=
  apiClient_401_retry_law "tok2" "tok1" "unauthorized" "unauthorized" "devices"
    3600 1000 2000 [{ status := 200, body := "never-used" }] (by decide)

/-- With the cache invalid and a refresh already in flight, `getToken()`
joins the in-flight promise without touching the state. -/
lemma tm_enter_joined (now : Nat) (s : TokenMgr.TMState)
    (hinv : TokenMgr.cacheInvalid now s = true) (hfl : s.inflight = true) :
    TokenMgr.getTokenEnter now s = (.joined, s) := by
  cases hs : s.accessToken with
  | none => simp [TokenMgr.getTokenEnter, hs, hfl]
  | some t =>
    have hexp : s.tokenExpirationTime ≤ now := by
      simpa [TokenMgr.cacheInvalid, hs] using hinv
    simp [TokenMgr.getTokenEnter, hs, hfl, Nat.not_lt.mpr hexp]

/-- With the cache invalid and no refresh in flight, `getToken()` starts a
refresh and records the in-flight promise. -/
lemma tm_enter_started (now : Nat) (s : TokenMgr.TMState)
    (hinv : TokenMgr.cacheInvalid now s = true) (hfl : s.inflight = false) :
    TokenMgr.getTokenEnter now s = (.started, { s with inflight := true }) := by
  cases hs : s.accessToken with
  | none => simp [TokenMgr.getTokenEnter, hs, hfl]
  | some t =>
    have hexp : s.tokenExpirationTime ≤ now := by
      simpa [TokenMgr.cacheInvalid, hs] using hinv
    simp [TokenMgr.getTokenEnter, hs, hfl, Nat.not_lt.mpr hexp]

/-- While a refresh is in flight and the cache invalid, every further
concurrent `getToken()` call joins the same in-flight promise. -/
lemma tm_run_joined (now : Nat) (s : TokenMgr.TMState)
    (hinv : TokenMgr.cacheInvalid now s = true) (hfl : s.inflight = true)
    (m : Nat) :
    TokenMgr.runGetTokens now s m = (List.replicate m .joined, s) := by
  induction m with
  | zero => rfl
  | succ k ih =>
    simp [TokenMgr.runGetTokens, tm_enter_joined now s hinv hfl, ih,
      List.replicate_succ]

/-- C5: single-flight token refresh (`AirthingsApiClient.getToken`,
`src/unnamed/part_002` lines 32–46).  For `n ≥ 1` concurrent `getToken()`
calls issued while no valid token is cached and no refresh is in flight,
exactly the first call starts a network exchange and the other `n - 1` join
the same in-flight promise — so exactly one exchange occurs and, when that
single refresh resolves with token `v`, every caller receives `v`; and
settling the refresh (success or failure) clears the in-flight promise. -/
theorem getToken_single_flight (now : Nat) (s : TokenMgr.TMState) (n : Nat)
    (v : String) (hinv : TokenMgr.cacheInvalid now s = true)
    (hfl : s.inflight = false) (hn : 1 ≤ n) :
    (TokenMgr.runGetTokens now s n).1 =
      .started :: List.replicate (n - 1) .joined ∧
    ((TokenMgr.runGetTokens now s n).1.filter (fun a => a == .started)).length = 1 ∧
    (TokenMgr.runGetTokens now s n).1.map (TokenMgr.deliver v) = List.replicate n v ∧
    (∀ r, (TokenMgr.refreshComplete now ((TokenMgr.runGetTokens now s n).2) r).inflight
        = false) := by
  obtain ⟨k, rfl⟩ : ∃ k, n = k + 1 := ⟨n - 1, (Nat.succ_pred_eq_of_pos hn).symm⟩
  have hinv1 : TokenMgr.cacheInvalid now { s with inflight := true } = true := by
    cases hs : s.accessToken with
    | none => simp [TokenMgr.cacheInvalid]
    | some t =>
      have hexp : s.tokenExpirationTime ≤ now := by
        simpa [TokenMgr.cacheInvalid, hs] using hinv
      simp [TokenMgr.cacheInvalid, hs, hexp]
  have hrun : TokenMgr.runGetTokens now s (k + 1) =
      (.started :: List.replicate k .joined, { s with inflight := true }) := by
    simp [TokenMgr.runGetTokens, tm_enter_started now s hinv hfl,
      tm_run_joined now { s with inflight := true } hinv1 rfl k]
  refine ⟨?_, ?_, ?_, ?_⟩
  · simp [hrun]
  · simp [hrun, List.filter_replicate]
  · simp [hrun, List.map_replicate, TokenMgr.deliver, List.replicate_succ]
  · intro r
    cases r <;> rfl

/-- Witness for C5: three concurrent calls on an empty cache — one refresh
started, two joined, all delivered the same token, and both possible refresh
settlements clear the in-flight promise. -/
theorem getToken_single_flight_witness :
    (TokenMgr.runGetTokens 1000 { accessToken := none, tokenExpirationTime := 0, inflight := false } 3).1 =
      .started :: List.replicate 2 .joined ∧
    ((TokenMgr.runGetTokens 1000 { accessToken := none, tokenExpirationTime := 0, inflight := false } 3).1.filter
        (fun a => a == .started)).length = 1 ∧
    (TokenMgr.runGetTokens 1000 { accessToken := none, tokenExpirationTime := 0, inflight := false } 3).1.map
        (TokenMgr.deliver "fresh-token") = List.replicate 3 "fresh-token" ∧
    (∀ r, (TokenMgr.refreshComplete 1000
        ((TokenMgr.runGetTokens 1000 { accessToken := none, tokenExpirationTime := 0, inflight := false } 3).2)
        r).inflight = false) :=
  getToken_single_flight 1000 _ 3 "fresh-token" (by decide) (by decide) (by decide)

/-- C6: orphan grace period (`cleanupOrphanedAccessories`,
`src/unnamed/part_000` lines 147–194).  For a cached accessory whose device
is absent from the upstream list or excluded by the filters: when
`orphanedSince` is unset, it is set to the current time and the record is
retained fault-flagged; when it is set, the record is evicted exactly when
`now - orphanedSince` strictly exceeds the grace period in milliseconds —
at exactly the boundary it is retained fault-flagged; and with grace period
0 days a record marked orphaned at `now - 1` is evicted on this very
reconciliation. -/
theorem orphan_grace_period_eviction (cfg : Platform.Config)
    (devs : List Platform.Device) (now : Int) (acc : Platform.AccRecord)
    (habs : ((devs.find? (fun d => d.id == acc.device.id)).isNone
              || Platform.shouldIgnoreDevice cfg acc.device) = true) :
    (acc.orphanedSince = none →
      Platform.cleanupStep cfg devs now acc =
        { retained := some { acc with orphanedSince := some now },
          evicted := false, faultFlagged := true }) ∧
    (∀ t0, acc.orphanedSince = some t0 →
      ((Platform.cleanupStep cfg devs now acc).evicted = true ↔
        now - t0 > Platform.orphanGracePeriodMs cfg)) ∧
    (∀ t0, acc.orphanedSince = some t0 →
      now - t0 = Platform.orphanGracePeriodMs cfg →
      (Platform.cleanupStep cfg devs now acc).evicted = false ∧
      (Platform.cleanupStep cfg devs now acc).faultFlagged = true) ∧
    (cfg.orphanGracePeriodDays = 0 → acc.orphanedSince = some (now - 1) →
      (Platform.cleanupStep cfg devs now acc).evicted = true) := by
  have hg : (0 : Int) ≤ Platform.orphanGracePeriodMs cfg := by
    unfold Platform.orphanGracePeriodMs
    positivity
  refine ⟨?_, ?_, ?_, ?_⟩
  · intro hno
    have hlt : ¬ now - now > Platform.orphanGracePeriodMs cfg := by
      simp only [Int.sub_self]
      exact fun h => absurd hg (not_le.mpr h)
    simp [Platform.cleanupStep, habs, hno, hlt, hg]
  · intro t0 ht
    by_cases h : now - t0 > Platform.orphanGracePeriodMs cfg <;>
      simp [Platform.cleanupStep, habs, ht, h]
  · intro t0 ht heq
    have hlt : ¬ now - t0 > Platform.orphanGracePeriodMs cfg := by
      rw [heq]
      exact lt_irrefl _
    simp [Platform.cleanupStep, habs, ht, hlt]
  · intro hz ht
    have hzg : Platform.orphanGracePeriodMs cfg = 0 := by
      simp [Platform.orphanGracePeriodMs, hz]
    simp [Platform.cleanupStep, habs, ht, hzg]

/-- Witness for C6: a non-hub accessory absent from an empty upstream list,
grace period 0 days, marked orphaned one millisecond earlier — evicted
now. -/
theorem orphan_grace_period_eviction_witness :
    (Platform.cleanupStep
        { ignoredDevices := [], includedDevices := [], orphanGracePeriodDays := 0 }
        [] 100
        { device := { id := "d1", deviceType := "VIEW_PLUS" },
          orphanedSince := some 99 }).evicted = true :=
  (orphan_grace_period_eviction
      { ignoredDevices := [], includedDevices := [], orphanGracePeriodDays := 0 }
      [] 100
      { device := { id := "d1", deviceType := "VIEW_PLUS" },
        orphanedSince := some 99 }
      (by decide)).2.2.2 rfl (by norm_num)

/-- C10: whatever the underlying `getLatestSamples` call does — resolve with
any value (including a nullish body, a missing `data` field or an empty
mapping) or reject with any thrown value (an `Error` of any name or a
non-`Error`) — `poll()` resolves normally: in both poller variants the
fallible computation always returns `Except.ok`, never an escaping
exception. -/
theorem poll_never_throws (p : StatePoller.Poller) (cf : Nat) (o : FetchOutcome) :
    StatePoller.pollExc p o = .ok (StatePoller.poll p o) ∧
    EmitterPoller.pollExc cf o = .ok (EmitterPoller.poll cf o) := by
  cases o <;> exact ⟨rfl, rfl⟩
